import Mathlib

/-!
Shallow embedding of the form-submission core of the KRA_ERP backend
(`src/Backend/apps/forms/api.py`, `models.py`, `schemas.py`).

The store is modelled as explicit state: a list of user ids (the external
identity directory), a list of wheel-specification records and a list of
bogie-checksheet records.  Handlers are pure functions from a store and a
validated payload to a new store, an HTTP status code and a response body.
-/

namespace KraErp

/-- A calendar date, as produced by the ISO-date coercion of the schema layer
(`datetime.date` in the source).  No date arithmetic occurs anywhere in the
handlers, so a plain year/month/day triple suffices. -/
structure CalDate where
  year : Nat
  month : Nat
  day : Nat
deriving DecidableEq, Repr

/-- Predicate `charsLeads needle hay` holds when `needle` is a leading segment of
`hay` (helper for substring containment). -/
def charsLeads : List Char → List Char → Bool
  | [], _ => true
  | _ :: _, [] => false
  | a :: as, b :: bs => a == b && charsLeads as bs

/-- Predicate `charsContains hay needle`: `needle` occurs contiguously inside `hay`. -/
def charsContains : List Char → List Char → Bool
  | [], needle => charsLeads needle []
  | hay@(_ :: t), needle => charsLeads needle hay || charsContains t needle

/-- Lower-cased character list of a string (ASCII lowering, which covers the
identifiers and form numbers this API handles). -/
def lowerChars (s : String) : List Char :=
  s.data.map Char.toLower

/-- Case-insensitive substring containment: the Django `__icontains` lookup
used by the list endpoints (`api.py` lines 133, 302, 319). -/
def strContainsCI (hay needle : String) : Bool :=
  charsContains (lowerChars hay) (lowerChars needle)

/-- The Python `str.title()` method as applied to the stored status word
(`api.py` lines 96, 157, 262, 330): upper-case a letter that does not follow
a letter, lower-case a letter that does. -/
def pyTitle (s : String) : String :=
  String.mk (s.data.foldl
    (fun acc c =>
      let prevAlpha := match acc.getLast? with
        | some p => p.isAlpha
        | none => false
      acc ++ [if c.isAlpha then (if prevAlpha then c.toLower else c.toUpper) else c])
    [])

/-- The coercion Django applies to the primary-key lookup value in
`User.objects.get(id=ref)`: the string is parsed as a decimal integer, and a
non-numeric string raises `ValueError` (modelled as `none`; the handlers
catch `ValueError` and `User.DoesNotExist` identically, `api.py` line 51). -/
def parseUserId : String → Option Nat
  | s =>
    if s.data ≠ [] ∧ s.data.all Char.isDigit then
      some (s.data.foldl (fun n c => n * 10 + (c.toNat - 48)) 0)
    else none

/-- Lookup `User.objects.get(id=ref)` over the modelled user directory: parse the
reference, then look it up; `none` stands for the caught
`(User.DoesNotExist, ValueError)` pair. -/
def resolve_user (users : List Nat) (ref : String) : Option Nat :=
  match parseUserId ref with
  | none => none
  | some n => if users.contains n then some n else none

/-! ### Records (`models.py`) -/

/-- Model `WheelSpecification` (`models.py` lines 125-244): form metadata,
fifteen free-text measurement columns, and a status word. -/
structure WheelSpecification where
  form_number : String
  submitted_by : Nat
  submitted_date : CalDate
  tread_diameter_new : String
  last_shop_issue_size : String
  condemning_dia : String
  wheel_gauge : String
  variation_same_axle : String
  variation_same_bogie : String
  variation_same_coach : String
  wheel_profile : String
  intermediate_wwp : String
  bearing_seat_diameter : String
  roller_bearing_outer_dia : String
  roller_bearing_bore_dia : String
  roller_bearing_width : String
  axle_box_housing_bore_dia : String
  wheel_disc_width : String
  status : String
deriving DecidableEq, Repr

/-- Model `BogieChecksheet` (`models.py` lines 247-392): form metadata, bogie
details, five bogie condition columns, four BMBC condition columns, status. -/
structure BogieChecksheet where
  form_number : String
  inspection_by : Nat
  inspection_date : CalDate
  bogie_no : String
  maker_year_built : String
  incoming_div_and_date : String
  deficit_components : String
  date_of_ioh : CalDate
  bogie_frame_condition : String
  bolster : String
  bolster_suspension_bracket : String
  lower_spring_seat : String
  axle_guide : String
  cylinder_body : String
  piston_trunnion : String
  adjusting_tube : String
  plunger_spring : String
  status : String
deriving DecidableEq, Repr

/-- The relational store plus the external user directory (user ids). -/
structure Store where
  users : List Nat
  wheelSpecs : List WheelSpecification
  bogieChecksheets : List BogieChecksheet
deriving DecidableEq, Repr

/-! ### Validated payloads (`schemas.py`) -/

/-- Schema `WheelSpecificationFieldsSchema` (`schemas.py` lines 23-42): the fifteen
measurement strings, already renamed from their camelCase aliases. -/
structure WheelSpecificationFieldsSchema where
  tread_diameter_new : String
  last_shop_issue_size : String
  condemning_dia : String
  wheel_gauge : String
  variation_same_axle : String
  variation_same_bogie : String
  variation_same_coach : String
  wheel_profile : String
  intermediate_wwp : String
  bearing_seat_diameter : String
  roller_bearing_outer_dia : String
  roller_bearing_bore_dia : String
  roller_bearing_width : String
  axle_box_housing_bore_dia : String
  wheel_disc_width : String
deriving DecidableEq, Repr

/-- Schema `WheelSpecificationCreateSchema` (`schemas.py` lines 45-50). -/
structure WheelSpecificationCreateSchema where
  form_number : String
  submitted_by : String
  submitted_date : CalDate
  fields : WheelSpecificationFieldsSchema
deriving DecidableEq, Repr

/-- Schema `BogieDetailsSchema` (`schemas.py` lines 73-79). -/
structure BogieDetailsSchema where
  bogie_no : String
  maker_year_built : String
  incoming_div_and_date : String
  deficit_components : String
  date_of_ioh : CalDate
deriving DecidableEq, Repr

/-- Schema `BogieChecksheetSchema` (`schemas.py` lines 82-88): the five bogie
condition assessments, plain strings (no vocabulary constraint). -/
structure BogieChecksheetSchema where
  bogie_frame_condition : String
  bolster : String
  bolster_suspension_bracket : String
  lower_spring_seat : String
  axle_guide : String
deriving DecidableEq, Repr

/-- Schema `BMBCChecksheetSchema` (`schemas.py` lines 91-96): the four BMBC
condition assessments, plain strings. -/
structure BMBCChecksheetSchema where
  cylinder_body : String
  piston_trunnion : String
  adjusting_tube : String
  plunger_spring : String
deriving DecidableEq, Repr

/-- Schema `BogieChecksheetCreateSchema` (`schemas.py` lines 135-142). -/
structure BogieChecksheetCreateSchema where
  form_number : String
  inspection_by : String
  inspection_date : CalDate
  bogie_details : BogieDetailsSchema
  bogie_checksheet : BogieChecksheetSchema
  bmbc_checksheet : BMBCChecksheetSchema
deriving DecidableEq, Repr

/-! ### Response bodies -/

/-- The shared response envelope: `{success, message, data}` on the success
branch and `{success, message, errors}` on the failure branch.  The source
writes the `success` boolean literally (`True`/`False`); here it is
determined by the constructor and exposed via `successFlag`. -/
inductive ApiResponse (δ : Type) where
  | ok (message : String) (data : δ)
  | failure (message : String) (errors : List (String × List String))
deriving DecidableEq, Repr

/-- The `success` flag of the envelope. -/
def ApiResponse.successFlag {δ : Type} : ApiResponse δ → Bool
  | .ok _ _ => true
  | .failure _ _ => false

/-- The `message` field of the envelope. -/
def ApiResponse.message {δ : Type} : ApiResponse δ → String
  | .ok m _ => m
  | .failure m _ => m

/-- The `data` field, present only on success. -/
def ApiResponse.getData {δ : Type} : ApiResponse δ → Option δ
  | .ok _ d => some d
  | .failure _ _ => none

/-- Data payload of the wheel-specification create response
(`api.py` lines 92-97). -/
structure WheelCreateData where
  formNumber : String
  submittedBy : String
  submittedDate : CalDate
  status : String
deriving DecidableEq, Repr

/-- Data payload of the bogie-checksheet create response
(`api.py` lines 258-263). -/
structure BogieCreateData where
  formNumber : String
  inspectionBy : String
  inspectionDate : CalDate
  status : String
deriving DecidableEq, Repr

/-- Result of a create handler: the store after the call, the HTTP status
code, and the response body. -/
structure CreateOutcome (δ : Type) where
  store : Store
  status : Nat
  response : ApiResponse δ
deriving DecidableEq, Repr

/-! ### Create handlers (`api.py`) -/

/-- The record built by `WheelSpecification.objects.create(...)`
(`api.py` lines 67-87): payload fields copied column by column,
the status string "submitted" passed explicitly (overriding the model default "saved"). -/
def wheelRecordOf (p : WheelSpecificationCreateSchema) (uid : Nat) : WheelSpecification :=
  { form_number := p.form_number
    submitted_by := uid
    submitted_date := p.submitted_date
    tread_diameter_new := p.fields.tread_diameter_new
    last_shop_issue_size := p.fields.last_shop_issue_size
    condemning_dia := p.fields.condemning_dia
    wheel_gauge := p.fields.wheel_gauge
    variation_same_axle := p.fields.variation_same_axle
    variation_same_bogie := p.fields.variation_same_bogie
    variation_same_coach := p.fields.variation_same_coach
    wheel_profile := p.fields.wheel_profile
    intermediate_wwp := p.fields.intermediate_wwp
    bearing_seat_diameter := p.fields.bearing_seat_diameter
    roller_bearing_outer_dia := p.fields.roller_bearing_outer_dia
    roller_bearing_bore_dia := p.fields.roller_bearing_bore_dia
    roller_bearing_width := p.fields.roller_bearing_width
    axle_box_housing_bore_dia := p.fields.axle_box_housing_bore_dia
    wheel_disc_width := p.fields.wheel_disc_width
    status := "submitted" }

/-- The record built by `BogieChecksheet.objects.create(...)`
(`api.py` lines 231-253). -/
def bogieRecordOf (p : BogieChecksheetCreateSchema) (uid : Nat) : BogieChecksheet :=
  { form_number := p.form_number
    inspection_by := uid
    inspection_date := p.inspection_date
    bogie_no := p.bogie_details.bogie_no
    maker_year_built := p.bogie_details.maker_year_built
    incoming_div_and_date := p.bogie_details.incoming_div_and_date
    deficit_components := p.bogie_details.deficit_components
    date_of_ioh := p.bogie_details.date_of_ioh
    bogie_frame_condition := p.bogie_checksheet.bogie_frame_condition
    bolster := p.bogie_checksheet.bolster
    bolster_suspension_bracket := p.bogie_checksheet.bolster_suspension_bracket
    lower_spring_seat := p.bogie_checksheet.lower_spring_seat
    axle_guide := p.bogie_checksheet.axle_guide
    cylinder_body := p.bmbc_checksheet.cylinder_body
    piston_trunnion := p.bmbc_checksheet.piston_trunnion
    adjusting_tube := p.bmbc_checksheet.adjusting_tube
    plunger_spring := p.bmbc_checksheet.plunger_spring
    status := "submitted" }

/-- The uniqueness constraint the storage layer itself enforces on `form_number`
(`models.py` line 130 / 252, `unique=True`): an insert whose form number
already exists in the table raises an integrity error whose message text is
the argument `exn`; otherwise the row is appended.  The raising itself
happens in the database engine, outside this repository, so only its
declared effect is modelled. -/
def dbInsertUnique {ρ : Type} (formNumberOf : ρ → String) (rows : List ρ) (r : ρ)
    (exn : String) : Except String (List ρ) :=
  if rows.any (fun x => formNumberOf x == formNumberOf r) then .error exn
  else .ok (rows ++ [r])

/-- Representative text of the integrity error raised by the store on a
unique-constraint violation (its exact wording is backend-dependent and
external to this repository; theorems that depend on this path quantify over
the text where it matters). -/
def wheelUniqueExnText : String :=
  "UNIQUE constraint failed: wheel_specifications.form_number"

/-- Representative integrity-error text for the bogie table. -/
def bogieUniqueExnText : String :=
  "UNIQUE constraint failed: bogie_checksheets.form_number"

/-- Handler `create_wheel_specification` (`api.py` lines 40-105), with the
check-then-act race made explicit: the application-level duplicate pre-check
(line 59) runs against `checkSnapshot` (the tables as seen at check time)
while the insert runs against `s.wheelSpecs` (the tables at insert time).
The single-request handler is the special case where the two coincide
(`create_wheel_specification` below).  An insert-time integrity error (text
`exn`) falls into the outer `except Exception` handler (lines 100-105). -/
def create_wheel_specification_racy (checkSnapshot : List WheelSpecification)
    (exn : String) (s : Store) (p : WheelSpecificationCreateSchema) :
    CreateOutcome WheelCreateData :=
  match resolve_user s.users p.submitted_by with
  | none =>
      ⟨s, 400, .failure "Invalid user ID provided" [("submitted_by", ["User not found"])]⟩
  | some uid =>
      if checkSnapshot.any (fun r => r.form_number == p.form_number) then
        ⟨s, 400, .failure "Form number already exists"
          [("form_number", ["This form number is already in use"])]⟩
      else
        match dbInsertUnique WheelSpecification.form_number s.wheelSpecs
            (wheelRecordOf p uid) exn with
        | .ok rows =>
            ⟨{ s with wheelSpecs := rows }, 201,
              .ok "Wheel specification submitted successfully."
                { formNumber := (wheelRecordOf p uid).form_number
                  submittedBy := toString uid
                  submittedDate := (wheelRecordOf p uid).submitted_date
                  status := pyTitle (wheelRecordOf p uid).status }⟩
        | .error e =>
            ⟨s, 400, .failure ("Error creating wheel specification: " ++ e)
              [("general", [e])]⟩

/-- Handler `create_wheel_specification` in its single-request reading: pre-check and
insert see the same table state. -/
def create_wheel_specification (s : Store) (p : WheelSpecificationCreateSchema) :
    CreateOutcome WheelCreateData :=
  create_wheel_specification_racy s.wheelSpecs wheelUniqueExnText s p

/-- Handler `create_bogie_checksheet` (`api.py` lines 201-271), race made explicit as
for the wheel handler. -/
def create_bogie_checksheet_racy (checkSnapshot : List BogieChecksheet)
    (exn : String) (s : Store) (p : BogieChecksheetCreateSchema) :
    CreateOutcome BogieCreateData :=
  match resolve_user s.users p.inspection_by with
  | none =>
      ⟨s, 400, .failure "Invalid user ID provided" [("inspection_by", ["User not found"])]⟩
  | some uid =>
      if checkSnapshot.any (fun r => r.form_number == p.form_number) then
        ⟨s, 400, .failure "Form number already exists"
          [("form_number", ["This form number is already in use"])]⟩
      else
        match dbInsertUnique BogieChecksheet.form_number s.bogieChecksheets
            (bogieRecordOf p uid) exn with
        | .ok rows =>
            ⟨{ s with bogieChecksheets := rows }, 201,
              .ok "Bogie checksheet submitted successfully."
                { formNumber := (bogieRecordOf p uid).form_number
                  inspectionBy := toString uid
                  inspectionDate := (bogieRecordOf p uid).inspection_date
                  status := pyTitle (bogieRecordOf p uid).status }⟩
        | .error e =>
            ⟨s, 400, .failure ("Error creating bogie checksheet: " ++ e)
              [("general", [e])]⟩

/-- Handler `create_bogie_checksheet` in its single-request reading. -/
def create_bogie_checksheet (s : Store) (p : BogieChecksheetCreateSchema) :
    CreateOutcome BogieCreateData :=
  create_bogie_checksheet_racy s.bogieChecksheets bogieUniqueExnText s p

/-! ### List handlers (`api.py`) -/

/-- The nested `fields` group of a wheel-specification list item
(`api.py` lines 158-174); `str(...)` applied to a stored string is the
identity, so every entry is the stored column verbatim. -/
structure WheelFieldsOut where
  treadDiameterNew : String
  lastShopIssueSize : String
  condemningDia : String
  wheelGauge : String
  variationSameAxle : String
  variationSameBogie : String
  variationSameCoach : String
  wheelProfile : String
  intermediateWWP : String
  bearingSeatDiameter : String
  rollerBearingOuterDia : String
  rollerBearingBoreDia : String
  rollerBearingWidth : String
  axleBoxHousingBoreDia : String
  wheelDiscWidth : String
deriving DecidableEq, Repr

/-- One item of the wheel-specification list response
(`api.py` lines 153-175). -/
structure WheelListItem where
  formNumber : String
  submittedBy : String
  submittedDate : CalDate
  status : String
  fields : WheelFieldsOut
deriving DecidableEq, Repr

/-- Reshaping of a stored wheel specification into the response item
(`api.py` lines 151-176). -/
def renderWheelSpec (r : WheelSpecification) : WheelListItem :=
  { formNumber := r.form_number
    submittedBy := toString r.submitted_by
    submittedDate := r.submitted_date
    status := pyTitle r.status
    fields :=
      { treadDiameterNew := r.tread_diameter_new
        lastShopIssueSize := r.last_shop_issue_size
        condemningDia := r.condemning_dia
        wheelGauge := r.wheel_gauge
        variationSameAxle := r.variation_same_axle
        variationSameBogie := r.variation_same_bogie
        variationSameCoach := r.variation_same_coach
        wheelProfile := r.wheel_profile
        intermediateWWP := r.intermediate_wwp
        bearingSeatDiameter := r.bearing_seat_diameter
        rollerBearingOuterDia := r.roller_bearing_outer_dia
        rollerBearingBoreDia := r.roller_bearing_bore_dia
        rollerBearingWidth := r.roller_bearing_width
        axleBoxHousingBoreDia := r.axle_box_housing_bore_dia
        wheelDiscWidth := r.wheel_disc_width } }

/-- Nested `bogieDetails` group of a bogie list item (`api.py` 331-337). -/
structure BogieDetailsOut where
  bogieNo : String
  makerYearBuilt : String
  incomingDivAndDate : String
  deficitComponents : String
  dateOfIOH : CalDate
deriving DecidableEq, Repr

/-- Nested `bogieChecksheet` group of a bogie list item (`api.py` 338-344). -/
structure BogieConditionsOut where
  bogieFrameCondition : String
  bolster : String
  bolsterSuspensionBracket : String
  lowerSpringSeat : String
  axleGuide : String
deriving DecidableEq, Repr

/-- Nested `bmbcChecksheet` group of a bogie list item (`api.py` 345-350). -/
structure BmbcOut where
  cylinderBody : String
  pistonTrunnion : String
  adjustingTube : String
  plungerSpring : String
deriving DecidableEq, Repr

/-- One item of the bogie-checksheet list response (`api.py` 326-351). -/
structure BogieListItem where
  formNumber : String
  inspectionBy : String
  inspectionDate : CalDate
  status : String
  bogieDetails : BogieDetailsOut
  bogieChecksheet : BogieConditionsOut
  bmbcChecksheet : BmbcOut
deriving DecidableEq, Repr

/-- Reshaping of a stored bogie checksheet into the response item
(`api.py` lines 324-352). -/
def renderBogieChecksheet (r : BogieChecksheet) : BogieListItem :=
  { formNumber := r.form_number
    inspectionBy := toString r.inspection_by
    inspectionDate := r.inspection_date
    status := pyTitle r.status
    bogieDetails :=
      { bogieNo := r.bogie_no
        makerYearBuilt := r.maker_year_built
        incomingDivAndDate := r.incoming_div_and_date
        deficitComponents := r.deficit_components
        dateOfIOH := r.date_of_ioh }
    bogieChecksheet :=
      { bogieFrameCondition := r.bogie_frame_condition
        bolster := r.bolster
        bolsterSuspensionBracket := r.bolster_suspension_bracket
        lowerSpringSeat := r.lower_spring_seat
        axleGuide := r.axle_guide }
    bmbcChecksheet :=
      { cylinderBody := r.cylinder_body
        pistonTrunnion := r.piston_trunnion
        adjustingTube := r.adjusting_tube
        plungerSpring := r.plunger_spring } }

/-- Tail of `get_wheel_specifications` after the user filter: apply the date
filter (a date object is always truthy in Python, so `some d` always
filters), pick the message from `filters_applied`, render
(`api.py` lines 146-186). -/
def finishWheelList (qs : List WheelSpecification) (filtersApplied : Bool)
    (submitted_date : Option CalDate) : Nat × ApiResponse (List WheelListItem) :=
  let step : List WheelSpecification × Bool := match submitted_date with
    | some d => (qs.filter (fun r => r.submitted_date == d), true)
    | none => (qs, filtersApplied)
  (200, .ok
    (if step.2 then "Filtered wheel specification forms fetched successfully."
     else "All wheel specification forms fetched successfully.")
    (step.1.map renderWheelSpec))

/-- Handler `get_wheel_specifications` (`api.py` lines 113-193).  Filters are applied
in source order; a string parameter that is `None` or `""` is falsy in
Python and skipped; a truthy `submitted_by` that does not resolve returns
the 400 user error before any further filter runs. -/
def get_wheel_specifications (s : Store) (form_number submitted_by : Option String)
    (submitted_date : Option CalDate) : Nat × ApiResponse (List WheelListItem) :=
  let start := match form_number with
    | some fn =>
        if fn == "" then (s.wheelSpecs, false)
        else (s.wheelSpecs.filter (fun r => strContainsCI r.form_number fn), true)
    | none => (s.wheelSpecs, false)
  match submitted_by with
  | some sb =>
      if sb == "" then finishWheelList start.1 start.2 submitted_date
      else
        match resolve_user s.users sb with
        | none =>
            (400, .failure "Invalid user ID provided" [("submitted_by", ["User not found"])])
        | some uid =>
            finishWheelList (start.1.filter (fun r => r.submitted_by == uid)) true
              submitted_date
  | none => finishWheelList start.1 start.2 submitted_date

/-- Tail of `get_bogie_checksheets` after the user filter: date filter, then
bogie-number filter (case-insensitive substring), message, render
(`api.py` lines 315-363). -/
def finishBogieList (qs : List BogieChecksheet) (filtersApplied : Bool)
    (inspection_date : Option CalDate) (bogie_no : Option String) :
    Nat × ApiResponse (List BogieListItem) :=
  let afterDate : List BogieChecksheet × Bool := match inspection_date with
    | some d => (qs.filter (fun r => r.inspection_date == d), true)
    | none => (qs, filtersApplied)
  let afterBogie : List BogieChecksheet × Bool := match bogie_no with
    | some bn =>
        if bn == "" then afterDate
        else (afterDate.1.filter (fun r => strContainsCI r.bogie_no bn), true)
    | none => afterDate
  (200, .ok
    (if afterBogie.2 then "Filtered bogie checksheet forms fetched successfully."
     else "All bogie checksheet forms fetched successfully.")
    (afterBogie.1.map renderBogieChecksheet))

/-- Handler `get_bogie_checksheets` (`api.py` lines 279-370). -/
def get_bogie_checksheets (s : Store) (form_number inspection_by : Option String)
    (inspection_date : Option CalDate) (bogie_no : Option String) :
    Nat × ApiResponse (List BogieListItem) :=
  let start := match form_number with
    | some fn =>
        if fn == "" then (s.bogieChecksheets, false)
        else (s.bogieChecksheets.filter (fun r => strContainsCI r.form_number fn), true)
    | none => (s.bogieChecksheets, false)
  match inspection_by with
  | some ib =>
      if ib == "" then finishBogieList start.1 start.2 inspection_date bogie_no
      else
        match resolve_user s.users ib with
        | none =>
            (400, .failure "Invalid user ID provided" [("inspection_by", ["User not found"])])
        | some uid =>
            finishBogieList (start.1.filter (fun r => r.inspection_by == uid)) true
              inspection_date bogie_no
  | none => finishBogieList start.1 start.2 inspection_date bogie_no

/-! ### Filter predicates as stated by the specification

The list endpoints apply their filters sequentially; the specification
describes the result as the records satisfying the conjunction of all
supplied predicates.  These definitions spell out that conjunction. -/

/-- A truthy text filter: skipped when absent or empty, otherwise
case-insensitive substring containment. -/
def textFilterPred (param : Option String) (stored : String) : Bool :=
  match param with
  | none => true
  | some f => if f == "" then true else strContainsCI stored f

/-- The user-reference filter once resolved: equality with the id of the
resolved user. -/
def userFilterPred (uid : Option Nat) (owner : Nat) : Bool :=
  match uid with
  | none => true
  | some u => owner == u

/-- The date filter: exact equality. -/
def dateFilterPred (param : Option CalDate) (stored : CalDate) : Bool :=
  match param with
  | none => true
  | some d => stored == d

/-- Conjunction of the three wheel-specification list filters. -/
def wheelMatchesFilters (fn : Option String) (uid : Option Nat) (sd : Option CalDate)
    (r : WheelSpecification) : Bool :=
  textFilterPred fn r.form_number && userFilterPred uid r.submitted_by &&
    dateFilterPred sd r.submitted_date

/-- Conjunction of the four bogie-checksheet list filters. -/
def bogieMatchesFilters (fn : Option String) (uid : Option Nat) (idate : Option CalDate)
    (bn : Option String) (r : BogieChecksheet) : Bool :=
  textFilterPred fn r.form_number && userFilterPred uid r.inspection_by &&
    dateFilterPred idate r.inspection_date && textFilterPred bn r.bogie_no

/-- Relation between a user-reference filter parameter and its resolution:
absent or empty parameters resolve to no restriction, a truthy parameter
must resolve to an existing user. -/
def userFilterResolved (users : List Nat) (param : Option String) (uid : Option Nat) : Prop :=
  match param with
  | none => uid = none
  | some b => if b = "" then uid = none else resolve_user users b = uid ∧ uid ≠ none

instance decUserFilterResolved (users : List Nat) (param : Option String)
    (uid : Option Nat) : Decidable (userFilterResolved users param uid) :=
  match param with
  | none => inferInstanceAs (Decidable (uid = none))
  | some b => inferInstanceAs (Decidable
      (if b = "" then uid = none else resolve_user users b = uid ∧ uid ≠ none))

/-! ### Shared helper lemmas -/

theorem pyTitle_submitted : pyTitle "submitted" = "Submitted" := by decide

theorem wheelRecordOf_form_number (p : WheelSpecificationCreateSchema) (uid : Nat) :
    (wheelRecordOf p uid).form_number = p.form_number := rfl

theorem wheelRecordOf_status (p : WheelSpecificationCreateSchema) (uid : Nat) :
    (wheelRecordOf p uid).status = "submitted" := rfl

theorem bogieRecordOf_form_number (p : BogieChecksheetCreateSchema) (uid : Nat) :
    (bogieRecordOf p uid).form_number = p.form_number := rfl

theorem bogieRecordOf_status (p : BogieChecksheetCreateSchema) (uid : Nat) :
    (bogieRecordOf p uid).status = "submitted" := rfl

theorem wheelRecordOf_submitted_date (p : WheelSpecificationCreateSchema) (uid : Nat) :
    (wheelRecordOf p uid).submitted_date = p.submitted_date := rfl

theorem bogieRecordOf_inspection_date (p : BogieChecksheetCreateSchema) (uid : Nat) :
    (bogieRecordOf p uid).inspection_date = p.inspection_date := rfl

theorem any_proj_eq_true {α : Type} (f : α → String) {l : List α} {v : String}
    (h : ∃ r ∈ l, f r = v) : l.any (fun r => f r == v) = true := by
  rcases h with ⟨r, hr, he⟩
  exact List.any_eq_true.mpr ⟨r, hr, by simp [he]⟩

theorem any_proj_eq_false {α : Type} (f : α → String) {l : List α} {v : String}
    (h : ∀ r ∈ l, f r ≠ v) : l.any (fun r => f r == v) = false := by
  rw [List.any_eq_false]
  intro r hr
  simpa using h r hr

/-! ### Fixtures for witnesses and counterexamples -/

/-- A sample wheel-specification fields group. -/
def sampleFields : WheelSpecificationFieldsSchema :=
  ⟨"915 (900-1000)", "837 (800-900)", "825 (800-900)", "1600 (+2,-1)", "0.5", "5", "13",
    "29.4 Flange Thickness", "20 TO 28", "130.043 TO 130.068", "280 (+0.0/-0.035)",
    "130 (+0.0/-0.025)", "93 (+0/-0.250)", "280 (+0.030/+0.052)", "127 (+4/-0)"⟩

/-- A sample wheel-specification create payload referencing user 1. -/
def samplePayload : WheelSpecificationCreateSchema :=
  ⟨"WHEEL-2025-001", "1", ⟨2025, 1, 1⟩, sampleFields⟩

/-- A sample bogie-checksheet create payload referencing user 1. -/
def sampleBogiePayload : BogieChecksheetCreateSchema :=
  ⟨"BOGIE-2025-001", "1", ⟨2025, 1, 1⟩,
    ⟨"BG1234", "RDSO/2018", "NR/2025-06-10", "None", ⟨2025, 1, 1⟩⟩,
    ⟨"Good", "Good", "Good", "Good", "Good"⟩,
    ⟨"GOOD", "GOOD", "GOOD", "GOOD"⟩⟩

/-- The store holding only user 1 and no records. -/
def emptyStore : Store := ⟨[1], [], []⟩

/-- The store after both sample creates have succeeded. -/
def storeWithRecords : Store :=
  ⟨[1], [wheelRecordOf samplePayload 1], [bogieRecordOf sampleBogiePayload 1]⟩

/-! ### Claims -/

/-- C1: in every store state already holding a record with form number F, a
create of the same type with form number F and a valid user reference fails
with the DuplicateFormNumber error (HTTP 400, `success = false`, per-field
error on `form_number`), regardless of the contents of all other payload
fields, and the store is unchanged. -/
theorem create_rejects_duplicate_form_number
    (s : Store) (p : WheelSpecificationCreateSchema) (q : BogieChecksheetCreateSchema)
    (uidW uidB : Nat)
    (huW : resolve_user s.users p.submitted_by = some uidW)
    (hdW : ∃ r ∈ s.wheelSpecs, r.form_number = p.form_number)
    (huB : resolve_user s.users q.inspection_by = some uidB)
    (hdB : ∃ r ∈ s.bogieChecksheets, r.form_number = q.form_number) :
    (create_wheel_specification s p).store = s ∧
    (create_wheel_specification s p).status = 400 ∧
    (create_wheel_specification s p).response.successFlag = false ∧
    (create_wheel_specification s p).response =
      .failure "Form number already exists"
        [("form_number", ["This form number is already in use"])] ∧
    (create_bogie_checksheet s q).store = s ∧
    (create_bogie_checksheet s q).status = 400 ∧
    (create_bogie_checksheet s q).response.successFlag = false ∧
    (create_bogie_checksheet s q).response =
      .failure "Form number already exists"
        [("form_number", ["This form number is already in use"])] := by
  have haW := any_proj_eq_true WheelSpecification.form_number hdW
  have haB := any_proj_eq_true BogieChecksheet.form_number hdB
  simp [create_wheel_specification, create_wheel_specification_racy,
    create_bogie_checksheet, create_bogie_checksheet_racy, huW, haW, huB, haB,
    ApiResponse.successFlag]

/-- Witness for C1 at a concrete store and payloads. -/
theorem create_rejects_duplicate_form_number_witness :
    (resolve_user storeWithRecords.users samplePayload.submitted_by = some 1 ∧
      (∃ r ∈ storeWithRecords.wheelSpecs, r.form_number = samplePayload.form_number) ∧
      resolve_user storeWithRecords.users sampleBogiePayload.inspection_by = some 1 ∧
      (∃ r ∈ storeWithRecords.bogieChecksheets, r.form_number = sampleBogiePayload.form_number)) ∧
    ((create_wheel_specification storeWithRecords samplePayload).store = storeWithRecords ∧
    (create_wheel_specification storeWithRecords samplePayload).status = 400 ∧
    (create_wheel_specification storeWithRecords samplePayload).response.successFlag = false ∧
    (create_wheel_specification storeWithRecords samplePayload).response =
      .failure "Form number already exists"
        [("form_number", ["This form number is already in use"])] ∧
    (create_bogie_checksheet storeWithRecords sampleBogiePayload).store = storeWithRecords ∧
    (create_bogie_checksheet storeWithRecords sampleBogiePayload).status = 400 ∧
    (create_bogie_checksheet storeWithRecords sampleBogiePayload).response.successFlag = false ∧
    (create_bogie_checksheet storeWithRecords sampleBogiePayload).response =
      .failure "Form number already exists"
        [("form_number", ["This form number is already in use"])]) :=
  ⟨⟨by decide, by decide, by decide, by decide⟩,
    create_rejects_duplicate_form_number storeWithRecords samplePayload sampleBogiePayload 1 1
      (by decide) (by decide) (by decide) (by decide)⟩

/-- C2: a create whose submitter/inspector reference does not resolve fails
with the InvalidReference error (HTTP 400, `success = false`, per-field error
on the reference field) and the store is unchanged. -/
theorem create_rejects_invalid_user_reference
    (s : Store) (p : WheelSpecificationCreateSchema) (q : BogieChecksheetCreateSchema)
    (huW : resolve_user s.users p.submitted_by = none)
    (huB : resolve_user s.users q.inspection_by = none) :
    (create_wheel_specification s p).store = s ∧
    (create_wheel_specification s p).status = 400 ∧
    (create_wheel_specification s p).response.successFlag = false ∧
    (create_wheel_specification s p).response =
      .failure "Invalid user ID provided" [("submitted_by", ["User not found"])] ∧
    (create_bogie_checksheet s q).store = s ∧
    (create_bogie_checksheet s q).status = 400 ∧
    (create_bogie_checksheet s q).response.successFlag = false ∧
    (create_bogie_checksheet s q).response =
      .failure "Invalid user ID provided" [("inspection_by", ["User not found"])] := by
  simp [create_wheel_specification, create_wheel_specification_racy,
    create_bogie_checksheet, create_bogie_checksheet_racy, huW, huB,
    ApiResponse.successFlag]

/-- Witness for C2: references "99" (absent user) and "abc" (non-numeric). -/
theorem create_rejects_invalid_user_reference_witness :
    (resolve_user emptyStore.users { samplePayload with submitted_by := "99" }.submitted_by = none ∧
      resolve_user emptyStore.users { sampleBogiePayload with inspection_by := "abc" }.inspection_by = none) ∧
    ((create_wheel_specification emptyStore { samplePayload with submitted_by := "99" }).store = emptyStore ∧
    (create_wheel_specification emptyStore { samplePayload with submitted_by := "99" }).status = 400 ∧
    (create_wheel_specification emptyStore { samplePayload with submitted_by := "99" }).response.successFlag = false ∧
    (create_wheel_specification emptyStore { samplePayload with submitted_by := "99" }).response =
      .failure "Invalid user ID provided" [("submitted_by", ["User not found"])] ∧
    (create_bogie_checksheet emptyStore { sampleBogiePayload with inspection_by := "abc" }).store = emptyStore ∧
    (create_bogie_checksheet emptyStore { sampleBogiePayload with inspection_by := "abc" }).status = 400 ∧
    (create_bogie_checksheet emptyStore { sampleBogiePayload with inspection_by := "abc" }).response.successFlag = false ∧
    (create_bogie_checksheet emptyStore { sampleBogiePayload with inspection_by := "abc" }).response =
      .failure "Invalid user ID provided" [("inspection_by", ["User not found"])]) :=
  ⟨⟨by decide, by decide⟩,
    create_rejects_invalid_user_reference emptyStore
      { samplePayload with submitted_by := "99" }
      { sampleBogiePayload with inspection_by := "abc" } (by decide) (by decide)⟩

/-- C3: a create whose user reference resolves and whose form number is
fresh persists a new record with stored status `"submitted"` (overriding the
model default `"saved"`) and returns HTTP 201 with `success = true` and a
data payload carrying the form number, the numeric id of the resolved user
rendered as a string, the date, and the capitalized status word
`"Submitted"`. -/
theorem create_persists_submitted_record
    (s : Store) (p : WheelSpecificationCreateSchema) (q : BogieChecksheetCreateSchema)
    (uidW uidB : Nat)
    (huW : resolve_user s.users p.submitted_by = some uidW)
    (hdW : ∀ r ∈ s.wheelSpecs, r.form_number ≠ p.form_number)
    (huB : resolve_user s.users q.inspection_by = some uidB)
    (hdB : ∀ r ∈ s.bogieChecksheets, r.form_number ≠ q.form_number) :
    (create_wheel_specification s p).store =
      { s with wheelSpecs := s.wheelSpecs ++ [wheelRecordOf p uidW] } ∧
    (wheelRecordOf p uidW).status = "submitted" ∧
    (create_wheel_specification s p).status = 201 ∧
    (create_wheel_specification s p).response.successFlag = true ∧
    (create_wheel_specification s p).response =
      .ok "Wheel specification submitted successfully."
        { formNumber := p.form_number, submittedBy := toString uidW,
          submittedDate := p.submitted_date, status := "Submitted" } ∧
    (create_bogie_checksheet s q).store =
      { s with bogieChecksheets := s.bogieChecksheets ++ [bogieRecordOf q uidB] } ∧
    (bogieRecordOf q uidB).status = "submitted" ∧
    (create_bogie_checksheet s q).status = 201 ∧
    (create_bogie_checksheet s q).response.successFlag = true ∧
    (create_bogie_checksheet s q).response =
      .ok "Bogie checksheet submitted successfully."
        { formNumber := q.form_number, inspectionBy := toString uidB,
          inspectionDate := q.inspection_date, status := "Submitted" } := by
  have haW := any_proj_eq_false WheelSpecification.form_number hdW
  have haB := any_proj_eq_false BogieChecksheet.form_number hdB
  simp [create_wheel_specification, create_wheel_specification_racy,
    create_bogie_checksheet, create_bogie_checksheet_racy, dbInsertUnique,
    huW, huB, haW, haB, wheelRecordOf_form_number, bogieRecordOf_form_number,
    wheelRecordOf_status, bogieRecordOf_status, wheelRecordOf_submitted_date,
    bogieRecordOf_inspection_date, pyTitle_submitted, ApiResponse.successFlag]

/-- Witness for C3 at the empty store and sample payloads. -/
theorem create_persists_submitted_record_witness :
    (resolve_user emptyStore.users samplePayload.submitted_by = some 1 ∧
      (∀ r ∈ emptyStore.wheelSpecs, r.form_number ≠ samplePayload.form_number) ∧
      resolve_user emptyStore.users sampleBogiePayload.inspection_by = some 1 ∧
      (∀ r ∈ emptyStore.bogieChecksheets, r.form_number ≠ sampleBogiePayload.form_number)) ∧
    ((create_wheel_specification emptyStore samplePayload).store =
      { emptyStore with wheelSpecs := emptyStore.wheelSpecs ++ [wheelRecordOf samplePayload 1] } ∧
    (wheelRecordOf samplePayload 1).status = "submitted" ∧
    (create_wheel_specification emptyStore samplePayload).status = 201 ∧
    (create_wheel_specification emptyStore samplePayload).response.successFlag = true ∧
    (create_wheel_specification emptyStore samplePayload).response =
      .ok "Wheel specification submitted successfully."
        { formNumber := samplePayload.form_number, submittedBy := toString 1,
          submittedDate := samplePayload.submitted_date, status := "Submitted" } ∧
    (create_bogie_checksheet emptyStore sampleBogiePayload).store =
      { emptyStore with
          bogieChecksheets := emptyStore.bogieChecksheets ++ [bogieRecordOf sampleBogiePayload 1] } ∧
    (bogieRecordOf sampleBogiePayload 1).status = "submitted" ∧
    (create_bogie_checksheet emptyStore sampleBogiePayload).status = 201 ∧
    (create_bogie_checksheet emptyStore sampleBogiePayload).response.successFlag = true ∧
    (create_bogie_checksheet emptyStore sampleBogiePayload).response =
      .ok "Bogie checksheet submitted successfully."
        { formNumber := sampleBogiePayload.form_number, inspectionBy := toString 1,
          inspectionDate := sampleBogiePayload.inspection_date, status := "Submitted" }) :=
  ⟨⟨by decide, by decide, by decide, by decide⟩,
    create_persists_submitted_record emptyStore samplePayload sampleBogiePayload 1 1
      (by decide) (by decide) (by decide) (by decide)⟩

/-- C6: the user-reference check runs before the duplicate-form-number
check: when the reference does not resolve and the form number is already
taken, the create fails with the InvalidReference (user-not-found) error,
not the DuplicateFormNumber one. -/
theorem create_checks_user_before_duplicate
    (s : Store) (p : WheelSpecificationCreateSchema) (q : BogieChecksheetCreateSchema)
    (huW : resolve_user s.users p.submitted_by = none)
    (hdW : ∃ r ∈ s.wheelSpecs, r.form_number = p.form_number)
    (huB : resolve_user s.users q.inspection_by = none)
    (hdB : ∃ r ∈ s.bogieChecksheets, r.form_number = q.form_number) :
    (create_wheel_specification s p).response =
      .failure "Invalid user ID provided" [("submitted_by", ["User not found"])] ∧
    (create_wheel_specification s p).response ≠
      .failure "Form number already exists"
        [("form_number", ["This form number is already in use"])] ∧
    (create_bogie_checksheet s q).response =
      .failure "Invalid user ID provided" [("inspection_by", ["User not found"])] ∧
    (create_bogie_checksheet s q).response ≠
      .failure "Form number already exists"
        [("form_number", ["This form number is already in use"])] := by
  simp [create_wheel_specification, create_wheel_specification_racy,
    create_bogie_checksheet, create_bogie_checksheet_racy, huW, huB]

/-- Witness for C6: store already holds both sample form numbers and the
payloads carry an unresolvable reference "99". -/
theorem create_checks_user_before_duplicate_witness :
    (resolve_user storeWithRecords.users { samplePayload with submitted_by := "99" }.submitted_by = none ∧
      (∃ r ∈ storeWithRecords.wheelSpecs,
        r.form_number = { samplePayload with submitted_by := "99" }.form_number) ∧
      resolve_user storeWithRecords.users { sampleBogiePayload with inspection_by := "99" }.inspection_by = none ∧
      (∃ r ∈ storeWithRecords.bogieChecksheets,
        r.form_number = { sampleBogiePayload with inspection_by := "99" }.form_number)) ∧
    ((create_wheel_specification storeWithRecords { samplePayload with submitted_by := "99" }).response =
      .failure "Invalid user ID provided" [("submitted_by", ["User not found"])] ∧
    (create_wheel_specification storeWithRecords { samplePayload with submitted_by := "99" }).response ≠
      .failure "Form number already exists"
        [("form_number", ["This form number is already in use"])] ∧
    (create_bogie_checksheet storeWithRecords { sampleBogiePayload with inspection_by := "99" }).response =
      .failure "Invalid user ID provided" [("inspection_by", ["User not found"])] ∧
    (create_bogie_checksheet storeWithRecords { sampleBogiePayload with inspection_by := "99" }).response ≠
      .failure "Form number already exists"
        [("form_number", ["This form number is already in use"])]) :=
  ⟨⟨by decide, by decide, by decide, by decide⟩,
    create_checks_user_before_duplicate storeWithRecords
      { samplePayload with submitted_by := "99" }
      { sampleBogiePayload with inspection_by := "99" }
      (by decide) (by decide) (by decide) (by decide)⟩

/-- C8: the bogie-checksheet create never validates the nine condition
strings against their documented vocabulary: for arbitrary strings in all
five bogie-condition fields and all four BMBC fields, a create with a
resolving reference and a fresh form number succeeds (HTTP 201) and stores
every condition value verbatim. -/
theorem bogie_conditions_accepted_verbatim
    (s : Store) (q : BogieChecksheetCreateSchema) (uid : Nat)
    (hu : resolve_user s.users q.inspection_by = some uid)
    (hd : ∀ r ∈ s.bogieChecksheets, r.form_number ≠ q.form_number) :
    (create_bogie_checksheet s q).status = 201 ∧
    (create_bogie_checksheet s q).response.successFlag = true ∧
    (create_bogie_checksheet s q).store.bogieChecksheets =
      s.bogieChecksheets ++ [bogieRecordOf q uid] ∧
    (bogieRecordOf q uid).bogie_frame_condition = q.bogie_checksheet.bogie_frame_condition ∧
    (bogieRecordOf q uid).bolster = q.bogie_checksheet.bolster ∧
    (bogieRecordOf q uid).bolster_suspension_bracket =
      q.bogie_checksheet.bolster_suspension_bracket ∧
    (bogieRecordOf q uid).lower_spring_seat = q.bogie_checksheet.lower_spring_seat ∧
    (bogieRecordOf q uid).axle_guide = q.bogie_checksheet.axle_guide ∧
    (bogieRecordOf q uid).cylinder_body = q.bmbc_checksheet.cylinder_body ∧
    (bogieRecordOf q uid).piston_trunnion = q.bmbc_checksheet.piston_trunnion ∧
    (bogieRecordOf q uid).adjusting_tube = q.bmbc_checksheet.adjusting_tube ∧
    (bogieRecordOf q uid).plunger_spring = q.bmbc_checksheet.plunger_spring := by
  have ha := any_proj_eq_false BogieChecksheet.form_number hd
  simp [create_bogie_checksheet, create_bogie_checksheet_racy, dbInsertUnique,
    hu, ha, bogieRecordOf_form_number, bogieRecordOf, ApiResponse.successFlag]

/-- Witness for C8: every condition field set to a string far outside the
documented vocabulary. -/
theorem bogie_conditions_accepted_verbatim_witness :
    (resolve_user emptyStore.users
        { sampleBogiePayload with
            bogie_checksheet := ⟨"TOTALLY-BOGUS", "42", "", "meh", "Worn-ish"⟩,
            bmbc_checksheet := ⟨"bad", "also bad", "???", "N/A"⟩ }.inspection_by = some 1 ∧
      (∀ r ∈ emptyStore.bogieChecksheets,
        r.form_number ≠
          { sampleBogiePayload with
              bogie_checksheet := ⟨"TOTALLY-BOGUS", "42", "", "meh", "Worn-ish"⟩,
              bmbc_checksheet := ⟨"bad", "also bad", "???", "N/A"⟩ }.form_number)) ∧
    ((create_bogie_checksheet emptyStore
        { sampleBogiePayload with
            bogie_checksheet := ⟨"TOTALLY-BOGUS", "42", "", "meh", "Worn-ish"⟩,
            bmbc_checksheet := ⟨"bad", "also bad", "???", "N/A"⟩ }).status = 201 ∧
      (create_bogie_checksheet emptyStore
        { sampleBogiePayload with
            bogie_checksheet := ⟨"TOTALLY-BOGUS", "42", "", "meh", "Worn-ish"⟩,
            bmbc_checksheet := ⟨"bad", "also bad", "???", "N/A"⟩ }).response.successFlag = true) :=
  ⟨⟨by decide, by decide⟩, by
    have h := bogie_conditions_accepted_verbatim emptyStore
      { sampleBogiePayload with
          bogie_checksheet := ⟨"TOTALLY-BOGUS", "42", "", "meh", "Worn-ish"⟩,
          bmbc_checksheet := ⟨"bad", "also bad", "???", "N/A"⟩ } 1
      (by decide) (by decide)
    exact ⟨h.1, h.2.1⟩⟩

/-! ### Reachable store states

The list endpoints read the store without modifying it, so the store states
reachable through the four in-scope operations are generated by the two
creates alone; updates of the external user directory are also allowed as a
step, since the identity provider is outside this core. -/

/-- Store states reachable through the in-scope surface. -/
inductive Reachable : Store → Prop where
  | init (users : List Nat) : Reachable ⟨users, [], []⟩
  | stepWheel {s : Store} (p : WheelSpecificationCreateSchema) :
      Reachable s → Reachable (create_wheel_specification s p).store
  | stepBogie {s : Store} (q : BogieChecksheetCreateSchema) :
      Reachable s → Reachable (create_bogie_checksheet s q).store
  | stepUsers {s : Store} (u : List Nat) :
      Reachable s → Reachable { s with users := u }

/-- A wheel create only ever appends records with status `"submitted"` to
the wheel table and leaves the bogie table untouched. -/
theorem wheel_create_extends (s : Store) (p : WheelSpecificationCreateSchema) :
    ∃ t, (create_wheel_specification s p).store.wheelSpecs = s.wheelSpecs ++ t ∧
      (∀ r ∈ t, r.status = "submitted") ∧
      (create_wheel_specification s p).store.bogieChecksheets = s.bogieChecksheets := by
  unfold create_wheel_specification create_wheel_specification_racy
  cases h : resolve_user s.users p.submitted_by with
  | none => exact ⟨[], by simp⟩
  | some uid =>
      by_cases hd : s.wheelSpecs.any (fun r => r.form_number == p.form_number)
      · exact ⟨[], by simp [hd]⟩
      · refine ⟨[wheelRecordOf p uid], ?_⟩
        simp [hd, dbInsertUnique, wheelRecordOf_form_number, wheelRecordOf_status]

/-- A bogie create only ever appends records with status `"submitted"` to
the bogie table and leaves the wheel table untouched. -/
theorem bogie_create_extends (s : Store) (q : BogieChecksheetCreateSchema) :
    ∃ t, (create_bogie_checksheet s q).store.bogieChecksheets = s.bogieChecksheets ++ t ∧
      (∀ r ∈ t, r.status = "submitted") ∧
      (create_bogie_checksheet s q).store.wheelSpecs = s.wheelSpecs := by
  unfold create_bogie_checksheet create_bogie_checksheet_racy
  cases h : resolve_user s.users q.inspection_by with
  | none => exact ⟨[], by simp⟩
  | some uid =>
      by_cases hd : s.bogieChecksheets.any (fun r => r.form_number == q.form_number)
      · exact ⟨[], by simp [hd]⟩
      · refine ⟨[bogieRecordOf q uid], ?_⟩
        simp [hd, dbInsertUnique, bogieRecordOf_form_number, bogieRecordOf_status]

/-- C9: in every store state reachable through the in-scope operations,
every wheel-specification and bogie-checksheet record still carries its
creation-time status `"submitted"` — the statuses reviewed/approved/rejected
are unreachable — and no operation modifies or deletes an existing record:
each create leaves the prior rows in place (appending at most a new one)
and leaves the other table unchanged. -/
theorem status_never_transitions (s : Store) (h : Reachable s) :
    (∀ r ∈ s.wheelSpecs, r.status = "submitted" ∧ r.status ≠ "reviewed" ∧
      r.status ≠ "approved" ∧ r.status ≠ "rejected") ∧
    (∀ b ∈ s.bogieChecksheets, b.status = "submitted" ∧ b.status ≠ "reviewed" ∧
      b.status ≠ "approved" ∧ b.status ≠ "rejected") ∧
    (∀ p : WheelSpecificationCreateSchema, ∃ t,
      (create_wheel_specification s p).store.wheelSpecs = s.wheelSpecs ++ t ∧
      (create_wheel_specification s p).store.bogieChecksheets = s.bogieChecksheets) ∧
    (∀ q : BogieChecksheetCreateSchema, ∃ t,
      (create_bogie_checksheet s q).store.bogieChecksheets = s.bogieChecksheets ++ t ∧
      (create_bogie_checksheet s q).store.wheelSpecs = s.wheelSpecs) := by
  have status_props : ∀ r : String, r = "submitted" →
      r = "submitted" ∧ r ≠ "reviewed" ∧ r ≠ "approved" ∧ r ≠ "rejected" := by
    intro r hr; subst hr; refine ⟨rfl, by decide, by decide, by decide⟩
  have extendW : ∀ s' p, ∃ t,
      (create_wheel_specification s' p).store.wheelSpecs = s'.wheelSpecs ++ t ∧
      (create_wheel_specification s' p).store.bogieChecksheets = s'.bogieChecksheets := by
    intro s' p
    obtain ⟨t, h1, _, h3⟩ := wheel_create_extends s' p
    exact ⟨t, h1, h3⟩
  have extendB : ∀ s' q, ∃ t,
      (create_bogie_checksheet s' q).store.bogieChecksheets = s'.bogieChecksheets ++ t ∧
      (create_bogie_checksheet s' q).store.wheelSpecs = s'.wheelSpecs := by
    intro s' q
    obtain ⟨t, h1, _, h3⟩ := bogie_create_extends s' q
    exact ⟨t, h1, h3⟩
  refine ⟨?_, ?_, extendW s, extendB s⟩ <;>
  · induction h with
    | init users => simp
    | stepWheel p hs ih =>
        obtain ⟨t, h1, h2, h3⟩ := wheel_create_extends _ p
        first
        | · rw [h1]
            intro r hr
            rcases List.mem_append.mp hr with hl | hl
            · exact ih r hl
            · exact status_props _ (h2 r hl)
        | · rw [h3]; exact ih
    | stepBogie q hs ih =>
        obtain ⟨t, h1, h2, h3⟩ := bogie_create_extends _ q
        first
        | · rw [h3]; exact ih
        | · rw [h1]
            intro b hb
            rcases List.mem_append.mp hb with hl | hl
            · exact ih b hl
            · exact status_props _ (h2 b hl)
    | stepUsers u hs ih => exact ih

/-- Witness for C9: a store reached by one wheel create and one bogie create
from an initial directory. -/
theorem status_never_transitions_witness :
    Reachable (create_bogie_checksheet
      (create_wheel_specification emptyStore samplePayload).store sampleBogiePayload).store ∧
    (∀ r ∈ (create_bogie_checksheet
        (create_wheel_specification emptyStore samplePayload).store sampleBogiePayload).store.wheelSpecs,
      r.status = "submitted" ∧ r.status ≠ "reviewed" ∧
        r.status ≠ "approved" ∧ r.status ≠ "rejected") ∧
    (∀ b ∈ (create_bogie_checksheet
        (create_wheel_specification emptyStore samplePayload).store sampleBogiePayload).store.bogieChecksheets,
      b.status = "submitted" ∧ b.status ≠ "reviewed" ∧
        b.status ≠ "approved" ∧ b.status ≠ "rejected") := by
  have hreach : Reachable (create_bogie_checksheet
      (create_wheel_specification emptyStore samplePayload).store sampleBogiePayload).store := by
    have h0 : Reachable emptyStore := Reachable.init [1]
    exact Reachable.stepBogie sampleBogiePayload (Reachable.stepWheel samplePayload h0)
  have h := status_never_transitions _ hreach
  exact ⟨hreach, h.1, h.2.1⟩

/-- C10: a filter parameter supplied as the empty string is treated exactly
as if it were omitted: the list result is the unfiltered one, the message is
the "All … fetched" one, and in particular an empty user-reference filter
does not trigger the user-not-found error. -/
theorem empty_string_filters_are_omitted (s : Store) :
    get_wheel_specifications s (some "") (some "") none =
      get_wheel_specifications s none none none ∧
    get_wheel_specifications s (some "") (some "") none =
      (200, .ok "All wheel specification forms fetched successfully."
        (s.wheelSpecs.map renderWheelSpec)) ∧
    get_bogie_checksheets s (some "") (some "") none (some "") =
      get_bogie_checksheets s none none none none ∧
    get_bogie_checksheets s (some "") (some "") none (some "") =
      (200, .ok "All bogie checksheet forms fetched successfully."
        (s.bogieChecksheets.map renderBogieChecksheet)) := by
  simp [get_wheel_specifications, get_bogie_checksheets, finishWheelList, finishBogieList]

/-! ### The list endpoints compute the conjunction of their filters -/

theorem filter_comp {α : Type} (l : List α) (p q : α → Bool) :
    (l.filter p).filter q = l.filter (fun a => p a && q a) := by
  rw [List.filter_filter]
  exact List.filter_congr (fun x _ => Bool.and_comm _ _)

theorem finishWheelList_data (qs : List WheelSpecification) (fa : Bool)
    (sd : Option CalDate) :
    (finishWheelList qs fa sd).1 = 200 ∧
    (finishWheelList qs fa sd).2.getData =
      some ((qs.filter (fun r => dateFilterPred sd r.submitted_date)).map renderWheelSpec) := by
  rcases sd with _ | d <;>
    simp [finishWheelList, dateFilterPred, ApiResponse.getData]

theorem finishBogieList_data (qs : List BogieChecksheet) (fa : Bool)
    (idate : Option CalDate) (bn : Option String) :
    (finishBogieList qs fa idate bn).1 = 200 ∧
    (finishBogieList qs fa idate bn).2.getData =
      some ((qs.filter (fun r =>
        dateFilterPred idate r.inspection_date && textFilterPred bn r.bogie_no)).map
          renderBogieChecksheet) := by
  rcases idate with _ | d <;> rcases bn with _ | b
  · simp [finishBogieList, dateFilterPred, textFilterPred, ApiResponse.getData]
  · by_cases hb : b = "" <;>
      simp [finishBogieList, dateFilterPred, textFilterPred, ApiResponse.getData, hb]
  · simp [finishBogieList, dateFilterPred, textFilterPred, ApiResponse.getData]
  · by_cases hb : b = ""
    · simp [finishBogieList, dateFilterPred, textFilterPred, ApiResponse.getData, hb]
    · simp [finishBogieList, dateFilterPred, textFilterPred, ApiResponse.getData, hb]
      exact congrArg (List.map renderBogieChecksheet)
        (List.filter_congr (fun x _ => Bool.and_comm _ _))

/-- Endpoint `get_wheel_specifications` reduces to `finishWheelList` applied to the
conjunction of the form-number and (resolved) user filters, whenever the
user filter resolves or is absent/empty. -/
theorem get_wheel_eq_finish (s : Store) (fn sb : Option String) (sd : Option CalDate)
    (uid : Option Nat) (h : userFilterResolved s.users sb uid) :
    ∃ fa, get_wheel_specifications s fn sb sd =
      finishWheelList (s.wheelSpecs.filter (fun r =>
        textFilterPred fn r.form_number && userFilterPred uid r.submitted_by)) fa sd := by
  rcases sb with _ | b
  · simp only [userFilterResolved] at h
    subst h
    rcases fn with _ | f
    · exact ⟨false, by simp [get_wheel_specifications, textFilterPred, userFilterPred]⟩
    · by_cases hf : f = ""
      · exact ⟨false, by simp [get_wheel_specifications, hf, textFilterPred, userFilterPred]⟩
      · exact ⟨true, by simp [get_wheel_specifications, hf, textFilterPred, userFilterPred]⟩
  · simp only [userFilterResolved] at h
    by_cases hb : b = ""
    · rw [if_pos hb] at h
      subst h
      rcases fn with _ | f
      · exact ⟨false, by simp [get_wheel_specifications, hb, textFilterPred, userFilterPred]⟩
      · by_cases hf : f = ""
        · exact ⟨false,
            by simp [get_wheel_specifications, hb, hf, textFilterPred, userFilterPred]⟩
        · exact ⟨true,
            by simp [get_wheel_specifications, hb, hf, textFilterPred, userFilterPred]⟩
    · rw [if_neg hb] at h
      obtain ⟨h1, h2⟩ := h
      rcases uid with _ | u
      · exact absurd rfl h2
      · rcases fn with _ | f
        · refine ⟨true, ?_⟩
          simp [get_wheel_specifications, hb, h1, textFilterPred, userFilterPred]
        · by_cases hf : f = ""
          · refine ⟨true, ?_⟩
            simp [get_wheel_specifications, hb, hf, h1, textFilterPred, userFilterPred]
          · refine ⟨true, ?_⟩
            simp [get_wheel_specifications, hb, hf, h1, textFilterPred, userFilterPred]
            exact congrArg (fun l => finishWheelList l true sd)
              (List.filter_congr (fun x _ => Bool.and_comm _ _))

/-- Endpoint `get_bogie_checksheets` reduces to `finishBogieList` analogously. -/
theorem get_bogie_eq_finish (s : Store) (fn ib : Option String) (idate : Option CalDate)
    (bn : Option String) (uid : Option Nat) (h : userFilterResolved s.users ib uid) :
    ∃ fa, get_bogie_checksheets s fn ib idate bn =
      finishBogieList (s.bogieChecksheets.filter (fun r =>
        textFilterPred fn r.form_number && userFilterPred uid r.inspection_by)) fa idate bn := by
  rcases ib with _ | b
  · simp only [userFilterResolved] at h
    subst h
    rcases fn with _ | f
    · exact ⟨false, by simp [get_bogie_checksheets, textFilterPred, userFilterPred]⟩
    · by_cases hf : f = ""
      · exact ⟨false, by simp [get_bogie_checksheets, hf, textFilterPred, userFilterPred]⟩
      · exact ⟨true, by simp [get_bogie_checksheets, hf, textFilterPred, userFilterPred]⟩
  · simp only [userFilterResolved] at h
    by_cases hb : b = ""
    · rw [if_pos hb] at h
      subst h
      rcases fn with _ | f
      · exact ⟨false, by simp [get_bogie_checksheets, hb, textFilterPred, userFilterPred]⟩
      · by_cases hf : f = ""
        · exact ⟨false,
            by simp [get_bogie_checksheets, hb, hf, textFilterPred, userFilterPred]⟩
        · exact ⟨true,
            by simp [get_bogie_checksheets, hb, hf, textFilterPred, userFilterPred]⟩
    · rw [if_neg hb] at h
      obtain ⟨h1, h2⟩ := h
      rcases uid with _ | u
      · exact absurd rfl h2
      · rcases fn with _ | f
        · refine ⟨true, ?_⟩
          simp [get_bogie_checksheets, hb, h1, textFilterPred, userFilterPred]
        · by_cases hf : f = ""
          · refine ⟨true, ?_⟩
            simp [get_bogie_checksheets, hb, hf, h1, textFilterPred, userFilterPred]
          · refine ⟨true, ?_⟩
            simp [get_bogie_checksheets, hb, hf, h1, textFilterPred, userFilterPred]
            exact congrArg (fun l => finishBogieList l true idate bn)
              (List.filter_congr (fun x _ => Bool.and_comm _ _))

/-- The wheel list endpoint, whenever its user filter resolves (or is
absent/empty), returns 200 and exactly the records satisfying the
conjunction of the supplied filters. -/
theorem get_wheel_ok (s : Store) (fn sb : Option String) (sd : Option CalDate)
    (uid : Option Nat) (h : userFilterResolved s.users sb uid) :
    (get_wheel_specifications s fn sb sd).1 = 200 ∧
    (get_wheel_specifications s fn sb sd).2.getData =
      some ((s.wheelSpecs.filter (fun r => wheelMatchesFilters fn uid sd r)).map
        renderWheelSpec) := by
  obtain ⟨fa, hfa⟩ := get_wheel_eq_finish s fn sb sd uid h
  rw [hfa]
  obtain ⟨w1, w2⟩ := finishWheelList_data
    (s.wheelSpecs.filter (fun r =>
      textFilterPred fn r.form_number && userFilterPred uid r.submitted_by)) fa sd
  refine ⟨w1, ?_⟩
  rw [w2, filter_comp]
  refine congrArg some (congrArg (List.map renderWheelSpec) ?_)
  exact List.filter_congr (fun x _ => by
    simp [wheelMatchesFilters, Bool.and_assoc])

/-- The bogie list endpoint, whenever its user filter resolves (or is
absent/empty), returns 200 and exactly the records satisfying the
conjunction of the supplied filters. -/
theorem get_bogie_ok (s : Store) (fn ib : Option String) (idate : Option CalDate)
    (bn : Option String) (uid : Option Nat) (h : userFilterResolved s.users ib uid) :
    (get_bogie_checksheets s fn ib idate bn).1 = 200 ∧
    (get_bogie_checksheets s fn ib idate bn).2.getData =
      some ((s.bogieChecksheets.filter (fun r => bogieMatchesFilters fn uid idate bn r)).map
        renderBogieChecksheet) := by
  obtain ⟨fa, hfa⟩ := get_bogie_eq_finish s fn ib idate bn uid h
  rw [hfa]
  obtain ⟨w1, w2⟩ := finishBogieList_data
    (s.bogieChecksheets.filter (fun r =>
      textFilterPred fn r.form_number && userFilterPred uid r.inspection_by)) fa idate bn
  refine ⟨w1, ?_⟩
  rw [w2, filter_comp]
  refine congrArg some (congrArg (List.map renderBogieChecksheet) ?_)
  exact List.filter_congr (fun x _ => by
    simp [bogieMatchesFilters, Bool.and_assoc])

/-- C4: for every store state and every combination of supplied list-filter
parameters (including none), the list operation returns exactly the records
of that type satisfying the conjunction of the supplied predicates —
case-insensitive substring containment for the form-number (and bogie-number)
filters, exact equality for the date filter, equality with the resolved user
for the reference filter; with no filters supplied every record is
returned. -/
theorem list_returns_conjunction_of_filters
    (s : Store) (fnW sbW : Option String) (sdW : Option CalDate) (uidW : Option Nat)
    (fnB ibB : Option String) (idB : Option CalDate) (bnB : Option String)
    (uidB : Option Nat)
    (hW : userFilterResolved s.users sbW uidW)
    (hB : userFilterResolved s.users ibB uidB) :
    (get_wheel_specifications s fnW sbW sdW).1 = 200 ∧
    (get_wheel_specifications s fnW sbW sdW).2.getData =
      some ((s.wheelSpecs.filter (wheelMatchesFilters fnW uidW sdW)).map renderWheelSpec) ∧
    (get_bogie_checksheets s fnB ibB idB bnB).1 = 200 ∧
    (get_bogie_checksheets s fnB ibB idB bnB).2.getData =
      some ((s.bogieChecksheets.filter (bogieMatchesFilters fnB uidB idB bnB)).map
        renderBogieChecksheet) := by
  obtain ⟨h1, h2⟩ := get_wheel_ok s fnW sbW sdW uidW hW
  obtain ⟨h3, h4⟩ := get_bogie_ok s fnB ibB idB bnB uidB hB
  exact ⟨h1, h2, h3, h4⟩

/-- Witness for C4: combined filters on a concrete populated store. -/
theorem list_returns_conjunction_of_filters_witness :
    (userFilterResolved storeWithRecords.users (some "1") (some 1) ∧
      userFilterResolved storeWithRecords.users (some "") none) ∧
    ((get_wheel_specifications storeWithRecords (some "wheel") (some "1")
        (some ⟨2025, 1, 1⟩)).1 = 200 ∧
    (get_wheel_specifications storeWithRecords (some "wheel") (some "1")
        (some ⟨2025, 1, 1⟩)).2.getData =
      some ((storeWithRecords.wheelSpecs.filter
        (wheelMatchesFilters (some "wheel") (some 1) (some ⟨2025, 1, 1⟩))).map
          renderWheelSpec) ∧
    (get_bogie_checksheets storeWithRecords none (some "") none (some "bg12")).1 = 200 ∧
    (get_bogie_checksheets storeWithRecords none (some "") none (some "bg12")).2.getData =
      some ((storeWithRecords.bogieChecksheets.filter
        (bogieMatchesFilters none none none (some "bg12"))).map renderBogieChecksheet)) :=
  ⟨⟨by decide, by decide⟩,
    list_returns_conjunction_of_filters storeWithRecords (some "wheel") (some "1")
      (some ⟨2025, 1, 1⟩) (some 1) none (some "") none (some "bg12") none
      (by decide) (by decide)⟩

/-! ### Round-trip (C5) -/

theorem charsLeads_refl (l : List Char) : charsLeads l l = true := by
  induction l with
  | nil => rfl
  | cons a t ih => simp [charsLeads, ih]

theorem charsContains_self (l : List Char) : charsContains l l = true := by
  cases l with
  | nil => rfl
  | cons a t => simp [charsContains, charsLeads_refl]

theorem strContainsCI_self (s : String) : strContainsCI s s = true := by
  unfold strContainsCI
  exact charsContains_self _

theorem textFilterPred_self (v : String) : textFilterPred (some v) v = true := by
  by_cases h : v = "" <;> simp [textFilterPred, h, strContainsCI_self]

/-- The store after a successful wheel create. -/
theorem create_wheel_success_store (s : Store) (p : WheelSpecificationCreateSchema)
    (uid : Nat) (hu : resolve_user s.users p.submitted_by = some uid)
    (hfresh : ∀ r ∈ s.wheelSpecs, r.form_number ≠ p.form_number) :
    (create_wheel_specification s p).store =
      { s with wheelSpecs := s.wheelSpecs ++ [wheelRecordOf p uid] } := by
  have ha := any_proj_eq_false WheelSpecification.form_number hfresh
  simp [create_wheel_specification, create_wheel_specification_racy, dbInsertUnique,
    hu, ha, wheelRecordOf_form_number]

/-- The wheel list item produced for a freshly created record. -/
def expectedWheelItem (p : WheelSpecificationCreateSchema) (uid : Nat) : WheelListItem :=
  { formNumber := p.form_number
    submittedBy := toString uid
    submittedDate := p.submitted_date
    status := "Submitted"
    fields :=
      { treadDiameterNew := p.fields.tread_diameter_new
        lastShopIssueSize := p.fields.last_shop_issue_size
        condemningDia := p.fields.condemning_dia
        wheelGauge := p.fields.wheel_gauge
        variationSameAxle := p.fields.variation_same_axle
        variationSameBogie := p.fields.variation_same_bogie
        variationSameCoach := p.fields.variation_same_coach
        wheelProfile := p.fields.wheel_profile
        intermediateWWP := p.fields.intermediate_wwp
        bearingSeatDiameter := p.fields.bearing_seat_diameter
        rollerBearingOuterDia := p.fields.roller_bearing_outer_dia
        rollerBearingBoreDia := p.fields.roller_bearing_bore_dia
        rollerBearingWidth := p.fields.roller_bearing_width
        axleBoxHousingBoreDia := p.fields.axle_box_housing_bore_dia
        wheelDiscWidth := p.fields.wheel_disc_width } }

theorem render_wheelRecordOf (p : WheelSpecificationCreateSchema) (uid : Nat) :
    renderWheelSpec (wheelRecordOf p uid) = expectedWheelItem p uid := by
  simp [renderWheelSpec, wheelRecordOf, expectedWheelItem, pyTitle_submitted]

/-- Store and payload refuting C5 as stated: the reference "007" resolves to
user 7, but the round-tripped record renders the reference as "7". -/
def cexStore : Store := ⟨[7], [], []⟩

/-- Valid create input whose submitter reference is a non-canonical decimal
string. -/
def cexPayload : WheelSpecificationCreateSchema :=
  ⟨"WHEEL-1", "007", ⟨2025, 1, 1⟩, sampleFields⟩

/-- Counterexample to C5 as stated: for the valid create input `cexPayload`
(reference "007" resolves to existing user 7, form number fresh), creating
and then listing by the form number returns exactly one record, and that
user-reference value of the returned record is "7", not the "007" of the input — so its field
values are not identical to those of the input. -/
theorem roundtrip_not_identical_counterexample :
    resolve_user cexStore.users cexPayload.submitted_by = some 7 ∧
    cexStore.wheelSpecs = [] ∧
    (create_wheel_specification cexStore cexPayload).status = 201 ∧
    (get_wheel_specifications (create_wheel_specification cexStore cexPayload).store
        (some "WHEEL-1") none none).2.getData =
      some [renderWheelSpec (wheelRecordOf cexPayload 7)] ∧
    (renderWheelSpec (wheelRecordOf cexPayload 7)).submittedBy = "7" ∧
    cexPayload.submitted_by = "007" := by decide

/-- C5 (amended): for every valid create input (resolving user reference,
fresh form number), creating and then listing filtered by the form number of the input yields exactly one record whose field values are identical to the
input — with its user reference equal to the canonical decimal rendering of
the numeric id of the resolved user (which equals the input reference whenever
that reference is written canonically), modulo the documented key renaming
and the capitalized status word. -/
theorem create_then_list_roundtrip
    (s : Store) (p : WheelSpecificationCreateSchema) (uid : Nat)
    (hu : resolve_user s.users p.submitted_by = some uid)
    (hfresh : ∀ r ∈ s.wheelSpecs, r.form_number ≠ p.form_number) :
    (get_wheel_specifications (create_wheel_specification s p).store
        (some p.form_number) none none).1 = 200 ∧
    ((get_wheel_specifications (create_wheel_specification s p).store
        (some p.form_number) none none).2.getData.getD []).count
      (expectedWheelItem p uid) = 1 := by
  have hstore := create_wheel_success_store s p uid hu hfresh
  have hlist := get_wheel_ok (create_wheel_specification s p).store
    (some p.form_number) none none none rfl
  refine ⟨hlist.1, ?_⟩
  rw [hlist.2, hstore]
  simp only [Option.getD_some]
  rw [List.filter_append, List.map_append, List.count_append]
  have hnew : (List.filter (fun r => wheelMatchesFilters (some p.form_number) none none r)
      [wheelRecordOf p uid]) = [wheelRecordOf p uid] := by
    simp [wheelMatchesFilters, userFilterPred, dateFilterPred,
      wheelRecordOf_form_number, textFilterPred_self]
  have hold : (List.map renderWheelSpec
      (List.filter (fun r => wheelMatchesFilters (some p.form_number) none none r)
        s.wheelSpecs)).count (expectedWheelItem p uid) = 0 := by
    rw [List.count_eq_zero]
    intro hmem
    obtain ⟨r, hrf, hre⟩ := List.mem_map.mp hmem
    have hrs : r ∈ s.wheelSpecs := (List.mem_filter.mp hrf).1
    have : r.form_number = p.form_number := by
      have := congrArg WheelListItem.formNumber hre
      simpa [renderWheelSpec, expectedWheelItem] using this
    exact hfresh r hrs this
  rw [hold, hnew]
  simp [render_wheelRecordOf]

/-- Witness for the amended C5. -/
theorem create_then_list_roundtrip_witness :
    (resolve_user emptyStore.users samplePayload.submitted_by = some 1 ∧
      (∀ r ∈ emptyStore.wheelSpecs, r.form_number ≠ samplePayload.form_number)) ∧
    ((get_wheel_specifications (create_wheel_specification emptyStore samplePayload).store
        (some samplePayload.form_number) none none).1 = 200 ∧
    ((get_wheel_specifications (create_wheel_specification emptyStore samplePayload).store
        (some samplePayload.form_number) none none).2.getData.getD []).count
      (expectedWheelItem samplePayload 1) = 1) :=
  ⟨⟨by decide, by decide⟩,
    create_then_list_roundtrip emptyStore samplePayload 1 (by decide) (by decide)⟩

/-! ### The race path (C7) -/

/-- Snapshot seen by the pre-check of the racing request: no record yet. -/
def raceSnapshotW : List WheelSpecification := []

/-- Table state at insert time: the concurrent sibling already committed the
row with the same form number. -/
def raceStoreW : Store := ⟨[1], [wheelRecordOf samplePayload 1], []⟩

/-- Counterexample to C7 as stated: when the application-level pre-check
passed (against a stale snapshot) but the store-level insert hits the
uniqueness constraint, the handler does NOT surface the DuplicateFormNumber
error; it falls into the generic exception handler, whose message embeds the
raw exception text. -/
theorem race_insert_not_duplicate_error_counterexample :
    (∀ r ∈ raceSnapshotW, r.form_number ≠ samplePayload.form_number) ∧
    (∃ r ∈ raceStoreW.wheelSpecs, r.form_number = samplePayload.form_number) ∧
    (create_wheel_specification_racy raceSnapshotW wheelUniqueExnText raceStoreW
        samplePayload).response ≠
      .failure "Form number already exists"
        [("form_number", ["This form number is already in use"])] ∧
    (create_wheel_specification_racy raceSnapshotW wheelUniqueExnText raceStoreW
        samplePayload).response =
      .failure ("Error creating wheel specification: " ++ wheelUniqueExnText)
        [("general", [wheelUniqueExnText])] := by decide

/-- C7 (amended): when the pre-check passes against its snapshot but the
store-level insert itself rejects the create with a uniqueness violation,
the handler surfaces the failure through the generic exception path — HTTP
400 with the raw exception text embedded in the message and under the
"general" error key, not the DuplicateFormNumber error — and the store is
unchanged.  This holds for every exception text the store produces. -/
theorem race_insert_failure_is_generic_error
    (snapW : List WheelSpecification) (snapB : List BogieChecksheet)
    (exnW exnB : String) (s : Store)
    (p : WheelSpecificationCreateSchema) (q : BogieChecksheetCreateSchema)
    (uidW uidB : Nat)
    (huW : resolve_user s.users p.submitted_by = some uidW)
    (hpreW : ∀ r ∈ snapW, r.form_number ≠ p.form_number)
    (hdupW : ∃ r ∈ s.wheelSpecs, r.form_number = p.form_number)
    (huB : resolve_user s.users q.inspection_by = some uidB)
    (hpreB : ∀ r ∈ snapB, r.form_number ≠ q.form_number)
    (hdupB : ∃ r ∈ s.bogieChecksheets, r.form_number = q.form_number) :
    (create_wheel_specification_racy snapW exnW s p).status = 400 ∧
    (create_wheel_specification_racy snapW exnW s p).store = s ∧
    (create_wheel_specification_racy snapW exnW s p).response =
      .failure ("Error creating wheel specification: " ++ exnW) [("general", [exnW])] ∧
    (create_wheel_specification_racy snapW exnW s p).response ≠
      .failure "Form number already exists"
        [("form_number", ["This form number is already in use"])] ∧
    (create_bogie_checksheet_racy snapB exnB s q).status = 400 ∧
    (create_bogie_checksheet_racy snapB exnB s q).store = s ∧
    (create_bogie_checksheet_racy snapB exnB s q).response =
      .failure ("Error creating bogie checksheet: " ++ exnB) [("general", [exnB])] ∧
    (create_bogie_checksheet_racy snapB exnB s q).response ≠
      .failure "Form number already exists"
        [("form_number", ["This form number is already in use"])] := by
  have hpw := any_proj_eq_false WheelSpecification.form_number hpreW
  have hpb := any_proj_eq_false BogieChecksheet.form_number hpreB
  have hdw := any_proj_eq_true WheelSpecification.form_number hdupW
  have hdb := any_proj_eq_true BogieChecksheet.form_number hdupB
  simp [create_wheel_specification_racy, create_bogie_checksheet_racy, dbInsertUnique,
    huW, huB, hpw, hpb, hdw, hdb, wheelRecordOf_form_number, bogieRecordOf_form_number]

/-- Witness for the amended C7 at the concrete race fixtures. -/
theorem race_insert_failure_is_generic_error_witness :
    ((resolve_user raceStoreW.users samplePayload.submitted_by = some 1 ∧
      (∀ r ∈ raceSnapshotW, r.form_number ≠ samplePayload.form_number) ∧
      (∃ r ∈ raceStoreW.wheelSpecs, r.form_number = samplePayload.form_number)) ∧
      (resolve_user raceStoreW.users
          { sampleBogiePayload with form_number := "BOGIE-RACE" }.inspection_by = some 1 ∧
        (∀ r ∈ ([] : List BogieChecksheet),
          r.form_number ≠ { sampleBogiePayload with form_number := "BOGIE-RACE" }.form_number) ∧
        (∃ r ∈ ({ raceStoreW with
            bogieChecksheets :=
              [bogieRecordOf { sampleBogiePayload with form_number := "BOGIE-RACE" } 1] } :
              Store).bogieChecksheets,
          r.form_number = { sampleBogiePayload with form_number := "BOGIE-RACE" }.form_number))) ∧
    ((create_wheel_specification_racy raceSnapshotW wheelUniqueExnText
        { raceStoreW with
            bogieChecksheets :=
              [bogieRecordOf { sampleBogiePayload with form_number := "BOGIE-RACE" } 1] }
        samplePayload).response =
      .failure ("Error creating wheel specification: " ++ wheelUniqueExnText)
        [("general", [wheelUniqueExnText])] ∧
    (create_bogie_checksheet_racy [] bogieUniqueExnText
        { raceStoreW with
            bogieChecksheets :=
              [bogieRecordOf { sampleBogiePayload with form_number := "BOGIE-RACE" } 1] }
        { sampleBogiePayload with form_number := "BOGIE-RACE" }).response =
      .failure ("Error creating bogie checksheet: " ++ bogieUniqueExnText)
        [("general", [bogieUniqueExnText])]) := by
  constructor
  · exact ⟨⟨by decide, by decide, by decide⟩, ⟨by decide, by decide, by decide⟩⟩
  · have h := race_insert_failure_is_generic_error raceSnapshotW [] wheelUniqueExnText
      bogieUniqueExnText
      { raceStoreW with
          bogieChecksheets :=
            [bogieRecordOf { sampleBogiePayload with form_number := "BOGIE-RACE" } 1] }
      samplePayload { sampleBogiePayload with form_number := "BOGIE-RACE" } 1 1
      (by decide) (by decide) (by decide) (by decide) (by decide) (by decide)
    exact ⟨h.2.2.1, h.2.2.2.2.2.2.1⟩

end KraErp
